import Mathlib

/-!
# Verification of the DeepAnalyze connection-pool subsystem

Shallow embedding of `src/API/datasources/pool.py` and
`src/API/datasources/registry.py`.

Modelling conventions:
* Connector instances are identified by natural numbers (`id(connector)` in
  Python); the pool's connector factory always succeeds and hands out fresh
  ids (`nextId`), since no claim under scrutiny involves factory failure.
* Wall-clock time (`datetime.now()`) is an explicit `Nat` parameter `now`;
  elapsed-time comparisons are carried out over `Int`, mirroring Python's
  signed arithmetic on `total_seconds()`.
* `asyncio.Queue` is a FIFO list: `get`/`get_nowait` pops the head,
  `put` appends at the back.  The Python queue stores references to the very
  `PooledConnection` objects held in the `_connections` set; we model queue
  entries by connector id and look bookkeeping up in `connections`, which
  captures that aliasing (a queue entry whose id is absent from
  `connections` is exactly a stale reference to an evicted handle).
* Calls to `connector.disconnect()` are recorded in the chronological log
  `disconnects` so that "disconnect is invoked exactly once" is statable.
* `connector.test_connection()` at release time is an external effect; its
  outcome is passed to `release` as `health : Option Bool`
  (`some b` = returns `b`, `none` = raises).
* Sequential atomic semantics: every operation runs to completion under the
  pool lock.  `acquire` at full capacity waits on the available queue; in a
  trace where no concurrent release occurs during the wait, that wait ends
  in `asyncio.TimeoutError`, which `acquire` converts to the pool's timeout
  error — hence the `.timeout` result in the at-capacity, nothing-available
  case.
-/

/-- `PoolConfig` from `pool.py` (defaults per the dataclass). -/
structure PoolConfig where
  max_size : Nat := 10
  min_size : Nat := 1
  max_idle_time : Nat := 300
  acquire_timeout : Nat := 30
  max_lifetime : Nat := 3600
  deriving Repr, DecidableEq

/-- `PooledConnection` from `pool.py`: wraps one connector with bookkeeping.
Equality/hashing in the source is by connector identity; here `connector` is
that identity. -/
structure PooledConnection where
  connector : Nat
  created_at : Nat
  last_used : Nat
  in_use : Bool
  use_count : Nat
  deriving Repr, DecidableEq

/-- `PooledConnection.is_expired`: age strictly above `max_lifetime`. -/
def PooledConnection.is_expired (conn : PooledConnection) (max_lifetime : Nat)
    (now : Nat) : Bool :=
  (now : Int) - (conn.created_at : Int) > (max_lifetime : Int)

/-- `PooledConnection.is_idle_too_long`: never for in-use handles, else idle
time strictly above `max_idle_time`. -/
def PooledConnection.is_idle_too_long (conn : PooledConnection)
    (max_idle_time : Nat) (now : Nat) : Bool :=
  if conn.in_use then false
  else (now : Int) - (conn.last_used : Int) > (max_idle_time : Int)

/-- `PooledConnection.mark_used`. -/
def PooledConnection.mark_used (conn : PooledConnection) (now : Nat) :
    PooledConnection :=
  { conn with in_use := true, last_used := now, use_count := conn.use_count + 1 }

/-- `PooledConnection.mark_released`. -/
def PooledConnection.mark_released (conn : PooledConnection) (now : Nat) :
    PooledConnection :=
  { conn with in_use := false, last_used := now }

/-- Errors raised by `ConnectionPool` (`PoolError` messages distinguished by
kind): "pool is closed" vs "Timeout waiting for connection". -/
inductive PoolErr where
  | closed
  | timeout
  deriving Repr, DecidableEq

/-- State of a `ConnectionPool`: `_connections` (a set keyed by connector
identity, kept as a duplicate-free-by-`connector` list), `_available` (FIFO
queue of connector ids, aliasing the set's elements), `_closed`, the factory
counter `nextId`, and the instrumentation log `disconnects` of every
`connector.disconnect()` call the pool has made. -/
structure ConnectionPool where
  data_source_id : String
  config : PoolConfig
  connections : List PooledConnection
  available : List Nat
  closed : Bool
  nextId : Nat
  disconnects : List Nat
  deriving Repr, DecidableEq

/-- `ConnectionPool.__init__`. -/
def mkConnectionPool (data_source_id : String) (config : PoolConfig) :
    ConnectionPool :=
  { data_source_id := data_source_id, config := config, connections := [],
    available := [], closed := false, nextId := 0, disconnects := [] }

/-- `_create_connection`: the factory yields a fresh connector (id `nextId`),
which connects successfully; the new handle starts not in use. -/
def ConnectionPool.create_connection (s : ConnectionPool) (now : Nat) :
    PooledConnection × ConnectionPool :=
  ({ connector := s.nextId, created_at := now, last_used := now,
     in_use := false, use_count := 0 },
   { s with nextId := s.nextId + 1 })

/-- `initialize`: create `min_size` connections, adding each to the live set
and the available queue (warmup; creation always succeeds in this model). -/
def ConnectionPool.initialize_pool (s : ConnectionPool) (now : Nat) :
    ConnectionPool :=
  (List.range s.config.min_size).foldl
    (fun st _ =>
      let p := st.create_connection now
      { p.2 with connections := p.2.connections ++ [p.1],
                 available := p.2.available ++ [p.1.connector] }) s

/-- `mark_used` applied through the live set to the handle owning connector
`c` (a no-op on the set when the popped queue entry is stale, exactly as the
source's mutation of a dangling `PooledConnection` object is). -/
def markUsedIn (conns : List PooledConnection) (c : Nat) (now : Nat) :
    List PooledConnection :=
  conns.map (fun k => if k.connector == c then k.mark_used now else k)

/-- `acquire`: fail fast when closed; else pop an available handle without
waiting; else create a new handle when below `max_size`; else wait for the
queue, which (with no concurrent release) expires into the pool's timeout
error.  The returned connector is `conn.connector` of the popped handle even
when that handle is no longer in the live set. -/
def ConnectionPool.acquire (s : ConnectionPool) (now : Nat) :
    Except PoolErr (Nat × ConnectionPool) :=
  if s.closed then .error .closed
  else
    match s.available with
    | c :: rest =>
        .ok (c, { s with available := rest,
                         connections := markUsedIn s.connections c now })
    | [] =>
        if s.connections.length ≥ s.config.max_size then .error .timeout
        else
          let p := s.create_connection now
          .ok (p.1.connector,
               { p.2 with connections := p.2.connections ++ [p.1.mark_used now] })

/-- `_remove_connection`: disconnect the connector (logged) and discard its
handle from the live set.  The available queue is *not* touched, exactly as
in the source. -/
def ConnectionPool.remove_connection (s : ConnectionPool) (c : Nat) :
    ConnectionPool :=
  { s with disconnects := s.disconnects ++ [c],
           connections := s.connections.eraseP (fun k => k.connector == c) }

/-- `release connector`: on a closed pool just disconnect; unknown connectors
are ignored; an unhealthy or raising health check (`health ≠ some true`) or
an expired handle is removed via `_remove_connection`; otherwise the handle
is marked released and put back on the available queue. -/
def ConnectionPool.release (s : ConnectionPool) (now : Nat) (c : Nat)
    (health : Option Bool) : ConnectionPool :=
  if s.closed then { s with disconnects := s.disconnects ++ [c] }
  else
    match s.connections.find? (fun k => k.connector == c) with
    | none => s
    | some conn =>
        match health with
        | some true =>
            if conn.is_expired s.config.max_lifetime now then
              s.remove_connection c
            else
              { s with
                connections :=
                  s.connections.map
                    (fun k => if k.connector == c then k.mark_released now else k),
                available := s.available ++ [c] }
        | _ => s.remove_connection c

/-- `close`: idempotent; disconnect every live handle (in set order), clear
the live set and drain the available queue. -/
def ConnectionPool.close (s : ConnectionPool) : ConnectionPool :=
  if s.closed then s
  else
    { s with closed := true,
             disconnects := s.disconnects ++ s.connections.map (·.connector),
             connections := [],
             available := [] }

/-- `size`. -/
def ConnectionPool.size (s : ConnectionPool) : Nat :=
  s.connections.length

/-- `available_count` (`self._available.qsize()`). -/
def ConnectionPool.available_count (s : ConnectionPool) : Nat :=
  s.available.length

/-- `in_use_count` (`_count_in_use`). -/
def ConnectionPool.in_use_count (s : ConnectionPool) : Nat :=
  s.connections.countP (·.in_use)

/-- Body of the scan loop of `_cleanup_connections`, accumulating
`to_remove`: skip in-use handles; skip when removal would leave at most
`min_size` live handles (`len(self._connections)` is the length at loop
entry, `total` here, since removal happens after the scan); otherwise select
expired handles, then handles idle too long. -/
def cleanupStep (cfg : PoolConfig) (total : Nat) (now : Nat)
    (tr : List PooledConnection) (conn : PooledConnection) :
    List PooledConnection :=
  if conn.in_use then tr
  else if (total : Int) - (tr.length : Int) ≤ (cfg.min_size : Int) then tr
  else if conn.is_expired cfg.max_lifetime now then tr ++ [conn]
  else if conn.is_idle_too_long cfg.max_idle_time now then tr ++ [conn]
  else tr

/-- `_cleanup_connections` (one pass of the eviction sweep): scan the live
set building `to_remove`, then `_remove_connection` each selected handle.
Set-iteration order is modelled as list order. -/
def ConnectionPool.cleanup_connections (s : ConnectionPool) (now : Nat) :
    ConnectionPool :=
  let to_remove :=
    s.connections.foldl (cleanupStep s.config s.connections.length now) []
  to_remove.foldl (fun st conn => st.remove_connection conn.connector) s

/-- Connector returned by an `acquire` result, when it succeeded. -/
def acquiredConnector (r : Except PoolErr (Nat × ConnectionPool)) :
    Option Nat :=
  match r with
  | .ok p => some p.1
  | .error _ => none

/-- Pool state after an `acquire` (unchanged when `acquire` raised). -/
def afterAcquire (s : ConnectionPool) (now : Nat) : ConnectionPool :=
  match s.acquire now with
  | .ok p => p.2
  | .error _ => s

/-! ## A concrete execution trace

`max_size = 2`, `min_size = 1`, defaults otherwise.  Initialize at `t = 0`,
acquire twice, release both (healthy) at `t = 0`, then run one eviction
sweep at `t = 301` (so both idle handles exceed `max_idle_time = 300`). -/

/-- `PoolConfig(max_size=2, min_size=1)`. -/
def cfgT : PoolConfig := { max_size := 2, min_size := 1 }

/-- Pool initialized at `t = 0`: one warm handle (connector 0). -/
def sT0 : ConnectionPool := (mkConnectionPool "db" cfgT).initialize_pool 0

/-- After the first acquire (returns connector 0). -/
def sT1 : ConnectionPool := afterAcquire sT0 0

/-- After the second acquire (creates and returns connector 1). -/
def sT2 : ConnectionPool := afterAcquire sT1 0

/-- After releasing connector 0, healthy. -/
def sT3 : ConnectionPool := sT2.release 0 0 (some true)

/-- After releasing connector 1, healthy: both handles idle, queue `[0, 1]`. -/
def sT4 : ConnectionPool := sT3.release 0 1 (some true)

/-- After one eviction sweep at `t = 301`: connector 0 is evicted from the
live set (the second idle handle is kept for `min_size`), but the available
queue still holds the stale entry for connector 0. -/
def sT5 : ConnectionPool := sT4.cleanup_connections 301

/-- Error raised by an `acquire` result, when it failed. -/
def acquireError (r : Except PoolErr (Nat × ConnectionPool)) : Option PoolErr :=
  match r with
  | .ok _ => none
  | .error e => some e

/-! ## Claims C1, C2, C5 -/

/-- C1: the spec claims `available + inUse == live ≤ maxSize` always holds,
but one eviction-sweep pass breaks the equation: in the trace above, after
the sweep the available queue still counts the evicted handle, so
`available_count + in_use_count = 2` while the live set has size 1. -/
theorem c1_sweep_breaks_accounting_invariant :
    sT5.available_count + sT5.in_use_count ≠ sT5.size ∧
    sT5.available_count = 2 ∧ sT5.in_use_count = 0 ∧ sT5.size = 1 := by
  decide

/-- C2: the spec claims an evicted (disconnected, removed) connector is never
handed out again, but after the sweep the very next `acquire` pops the stale
queue entry and returns connector 0, whose `disconnect` was already invoked
by the sweep and whose handle is no longer in the live set. -/
theorem c2_acquire_returns_evicted_connector :
    acquiredConnector (sT5.acquire 301) = some 0 ∧
    sT5.disconnects = [0] ∧
    sT5.connections.map (·.connector) = [1] := by
  decide

/-- C5: with `max_size = 2`, `min_size = 1` and a healthy factory, two
acquires succeed (connectors 0 and 1, both then in use), a third acquire at
capacity fails with the pool's timeout error specifically, and after one
release a fourth acquire succeeds, reusing the freed connector. -/
theorem c5_capacity_timeout_scenario :
    acquiredConnector (sT0.acquire 0) = some 0 ∧
    acquiredConnector (sT1.acquire 0) = some 1 ∧
    sT2.in_use_count = 2 ∧
    acquireError (sT2.acquire 0) = some .timeout ∧
    acquiredConnector (sT3.acquire 0) = some 0 := by
  decide

/-! ## Claim C9 -/

/-- `PoolConfig(max_size=10, min_size=2)` for the C9 counterexample. -/
def cfg9 : PoolConfig := { max_size := 10, min_size := 2 }

/-- Otherwise-idle pool warmed with two handles (connectors 0 and 1),
available queue `[0, 1]`. -/
def s90 : ConnectionPool := (mkConnectionPool "ds" cfg9).initialize_pool 0

/-- C9 counterexample: in an initialized pool with `min_size = 2`, no other
borrowers and no eviction condition (healthy release at `t = 0`, nothing
expired or idle), acquire-release-acquire returns connector 0 first and
connector 1 second — the FIFO available queue hands back a different
handle. -/
theorem c9_counterexample_fifo_returns_other_handle :
    acquiredConnector (s90.acquire 0) = some 0 ∧
    acquiredConnector (((afterAcquire s90 0).release 0 0 (some true)).acquire 0)
      = some 1 := by
  decide

/-- `mark_used` does not change the connector identity, so `find?` by
connector commutes with `markUsedIn`. -/
theorem find?_markUsedIn (l : List PooledConnection) (c t : Nat) :
    (markUsedIn l c t).find? (fun k => k.connector == c)
      = (l.find? (fun k => k.connector == c)).map (·.mark_used t) := by
  induction l with
  | nil => simp [markUsedIn]
  | cons a l ih =>
    by_cases h : a.connector = c
    · simp [markUsedIn, PooledConnection.mark_used, h]
    · simpa [markUsedIn, PooledConnection.mark_used, h] using ih

/-- C9 (amended): when the acquired handle is the pool's only available one
(`available = [c]`, as with `minSize = 1`), the pool open, the handle live
and not past `maxLifetime` at release time, acquire-release(healthy)-acquire
returns the same connector `c` both times. -/
theorem c9_amended_reuse_with_single_available (s : ConnectionPool)
    (c t₁ t₂ t₃ : Nat)
    (hcl : s.closed = false)
    (hav : s.available = [c])
    (hmem : c ∈ s.connections.map (·.connector))
    (hexp : ∀ conn ∈ s.connections, conn.connector = c →
      (t₂ : Int) - (conn.created_at : Int) ≤ (s.config.max_lifetime : Int)) :
    acquiredConnector (s.acquire t₁) = some c ∧
    acquiredConnector
        (((afterAcquire s t₁).release t₂ c (some true)).acquire t₃)
      = some c := by
  obtain ⟨k, hkmem, hkc⟩ := List.mem_map.mp hmem
  have hfindsome : (s.connections.find? (fun k => k.connector == c)).isSome :=
    List.find?_isSome.mpr ⟨k, hkmem, by simp [hkc]⟩
  obtain ⟨conn, hfind⟩ := Option.isSome_iff_exists.mp hfindsome
  have h1 : s.acquire t₁ = .ok (c, { s with
      available := [],
      connections := markUsedIn s.connections c t₁ }) := by
    simp [ConnectionPool.acquire, hcl, hav]
  have h2 : afterAcquire s t₁ = { s with
      available := [],
      connections := markUsedIn s.connections c t₁ } := by
    simp [afterAcquire, h1]
  have hfind1 : (markUsedIn s.connections c t₁).find?
      (fun k => k.connector == c) = some (conn.mark_used t₁) := by
    rw [find?_markUsedIn, hfind, Option.map_some']
  have hexpired : (conn.mark_used t₁).is_expired s.config.max_lifetime t₂
      = false := by
    have hc : conn.connector = c := by
      have := List.find?_some hfind
      simpa using this
    have hb := hexp conn (List.mem_of_find?_eq_some hfind) hc
    simp only [PooledConnection.is_expired, PooledConnection.mark_used,
      decide_eq_false_iff_not, not_lt]
    exact hb
  refine ⟨by simp [acquiredConnector, h1], ?_⟩
  rw [h2]
  simp only [ConnectionPool.release, hcl, Bool.false_eq_true, if_false,
    hfind1, hexpired]
  simp [ConnectionPool.acquire, acquiredConnector]

/-- Witness for the amended C9 at a concrete input: the warm one-handle pool
`sT0`, acquire at `t = 0`, healthy release at `t = 5`, acquire at `t = 5`. -/
theorem c9_amended_witness :
    sT0.closed = false ∧ sT0.available = [0] ∧
    (0 : Nat) ∈ sT0.connections.map (·.connector) ∧
    (acquiredConnector (sT0.acquire 0) = some 0 ∧
     acquiredConnector (((afterAcquire sT0 0).release 5 0 (some true)).acquire 5)
       = some 0) :=
  ⟨by decide, by decide, by decide,
   c9_amended_reuse_with_single_available sT0 0 0 5 5 (by decide) (by decide)
     (by decide) (by decide)⟩

/-! ## Claim C3 -/

/-- Scan invariant: the accumulated `to_remove` list never grows past
`total - min_size`, because the guard skips any handle whose removal would
leave at most `min_size` live handles. -/
theorem cleanupStep_foldl_length (cfg : PoolConfig) (total now : Nat) :
    ∀ (conns tr : List PooledConnection),
      tr.length + cfg.min_size ≤ total →
      (conns.foldl (cleanupStep cfg total now) tr).length + cfg.min_size
        ≤ total := by
  intro conns
  induction conns with
  | nil => intro tr h; simpa using h
  | cons a l ih =>
    intro tr h
    rw [List.foldl_cons]
    apply ih
    unfold cleanupStep
    split
    · exact h
    · split
      · exact h
      · next hg =>
        split
        · simp only [List.length_append, List.length_cons, List.length_nil]
          omega
        · split
          · simp only [List.length_append, List.length_cons, List.length_nil]
            omega
          · exact h

/-- Erasing one element shrinks a list by at most one. -/
theorem length_le_eraseP_length_add_one {α : Type} (p : α → Bool) :
    ∀ l : List α, l.length ≤ (l.eraseP p).length + 1 := by
  intro l
  induction l with
  | nil => simp
  | cons a l ih =>
    by_cases h : p a
    · simp [List.eraseP_cons_of_pos h]
    · simp only [List.eraseP_cons_of_neg h, List.length_cons]
      omega

/-- The removal loop of the sweep shrinks the live set by at most one handle
per selected element. -/
theorem remove_foldl_length :
    ∀ (tr : List PooledConnection) (s : ConnectionPool),
      s.connections.length ≤
        (tr.foldl (fun st conn => st.remove_connection conn.connector)
          s).connections.length + tr.length := by
  intro tr
  induction tr with
  | nil => intro s; simp
  | cons a l ih =>
    intro s
    rw [List.foldl_cons]
    have h1 := length_le_eraseP_length_add_one
      (fun k => k.connector == a.connector) s.connections
    have h2 := ih (s.remove_connection a.connector)
    simp only [ConnectionPool.remove_connection, List.length_cons] at *
    omega

/-- C3: one pass of the eviction sweep never drives the live-handle count
below `min_size`, whenever it starts at or above `min_size` — even if every
idle handle is expired or idle too long. -/
theorem c3_cleanup_preserves_min_size (s : ConnectionPool) (now : Nat)
    (h : s.config.min_size ≤ s.size) :
    s.config.min_size ≤ (s.cleanup_connections now).size := by
  unfold ConnectionPool.size at *
  have he : (s.cleanup_connections now).connections
      = ((s.connections.foldl (cleanupStep s.config s.connections.length now)
          []).foldl (fun st conn => st.remove_connection conn.connector)
          s).connections := rfl
  rw [he]
  have h1 := cleanupStep_foldl_length s.config s.connections.length now
    s.connections [] (by simpa using h)
  have h2 := remove_foldl_length
    (s.connections.foldl (cleanupStep s.config s.connections.length now) []) s
  omega

/-- Witness for C3: the two-idle-handle pool `sT4` at `t = 10000` (every
handle both expired and idle too long); one handle survives the sweep. -/
theorem c3_witness :
    sT4.config.min_size ≤ sT4.size ∧
    sT4.config.min_size ≤ (sT4.cleanup_connections 10000).size :=
  ⟨by decide, c3_cleanup_preserves_min_size sT4 10000 (by decide)⟩

/-! ## Claim C4 -/

/-- C4: releasing a live connector whose health check reports unhealthy
(`some false`) or raises (`none`) into an open pool removes its handle (the
live set shrinks by exactly one), invokes that connector's `disconnect`
exactly once, and `release` returns normally (it is a total function here,
as the source catches the health-check exception). -/
theorem c4_release_unhealthy_evicts (s : ConnectionPool) (c now : Nat)
    (health : Option Bool)
    (hcl : s.closed = false)
    (hmem : c ∈ s.connections.map (·.connector))
    (hh : health = some false ∨ health = none) :
    (s.release now c health).size + 1 = s.size ∧
    (s.release now c health).disconnects.count c
      = s.disconnects.count c + 1 := by
  obtain ⟨k, hkmem, hkc⟩ := List.mem_map.mp hmem
  have hfindsome : (s.connections.find? (fun k => k.connector == c)).isSome :=
    List.find?_isSome.mpr ⟨k, hkmem, by simp [hkc]⟩
  obtain ⟨conn, hfind⟩ := Option.isSome_iff_exists.mp hfindsome
  have hrel : s.release now c health = s.remove_connection c := by
    rcases hh with h | h <;> subst h <;>
      simp [ConnectionPool.release, hcl, hfind]
  rw [hrel]
  constructor
  · have hlen : (s.connections.eraseP (fun k => k.connector == c)).length
        = s.connections.length - 1 :=
      List.length_eraseP_of_mem hkmem (by simp [hkc])
    have hpos : 0 < s.connections.length := List.length_pos.mpr
      (List.ne_nil_of_mem hkmem)
    simp only [ConnectionPool.remove_connection, ConnectionPool.size, hlen]
    omega
  · simp [ConnectionPool.remove_connection]

/-- Witness for C4: releasing connector 1 of `sT2` (both handles in use)
with a failing health check shrinks the pool from 2 to 1 and logs exactly
one disconnect of connector 1. -/
theorem c4_witness :
    sT2.closed = false ∧ (1 : Nat) ∈ sT2.connections.map (·.connector) ∧
    ((sT2.release 0 1 (some false)).size + 1 = sT2.size ∧
     (sT2.release 0 1 (some false)).disconnects.count 1
       = sT2.disconnects.count 1 + 1) :=
  ⟨by decide, by decide,
   c4_release_unhealthy_evicts sT2 1 0 (some false) (by decide) (by decide)
     (Or.inl rfl)⟩

/-! ## Claim C7 -/

/-- C7: from an open pool, calling `close` twice yields exactly the same
state as calling it once (closed flag set, live set and available queue
empty), and each live handle's connector is disconnected at most once
across both calls (given the live set holds distinct connectors, as the
source's identity-keyed set guarantees). -/
theorem c7_close_idempotent (s : ConnectionPool)
    (hcl : s.closed = false)
    (hnd : (s.connections.map (·.connector)).Nodup) :
    s.close.close = s.close ∧
    s.close.closed = true ∧
    s.close.connections = [] ∧
    s.close.available = [] ∧
    ∀ c, s.close.close.disconnects.count c ≤ s.disconnects.count c + 1 := by
  have h1 : s.close = { s with
      closed := true,
      disconnects := s.disconnects ++ s.connections.map (·.connector),
      connections := [],
      available := [] } := by
    simp [ConnectionPool.close, hcl]
  have h2 : s.close.close = s.close := by
    rw [h1]
    simp [ConnectionPool.close]
  refine ⟨h2, by rw [h1], by rw [h1], by rw [h1], ?_⟩
  intro c
  rw [h2, h1]
  have hcount : (s.connections.map (·.connector)).count c ≤ 1 :=
    List.nodup_iff_count_le_one.mp hnd c
  simp only [List.count_append]
  omega

/-- Witness for C7 at the concrete open pool `sT4` (connectors 0 and 1
live, none disconnected yet). -/
theorem c7_witness :
    sT4.closed = false ∧ (sT4.connections.map (·.connector)).Nodup ∧
    (sT4.close.close = sT4.close ∧
     sT4.close.closed = true ∧
     sT4.close.connections = [] ∧
     sT4.close.available = [] ∧
     ∀ c, sT4.close.close.disconnects.count c ≤ sT4.disconnects.count c + 1) :=
  ⟨by decide, by decide, c7_close_idempotent sT4 (by decide) (by decide)⟩

/-! ## Registry (`registry.py`) and pool catalog (`pool.py`) -/

/-- `DataSourceType` enum from `base.py`. -/
inductive DataSourceType where
  | azure_blob
  | postgresql
  | local_file
  deriving Repr, DecidableEq

/-- `DataSourceConfig` from `base.py`.  The `config` dict holds the
type-specific entries; `encrypted = true` models the registry's
single-ciphertext form `{"_encrypted": ...}` — the credential manager's
Fernet encryption is an external collaborator, modelled as an opaque
invertible wrapper around the original entries. -/
structure DataSourceConfig where
  id : String
  ty : DataSourceType
  name : String
  config : List (String × String)
  created_at : Nat := 0
  metadata : List (String × String) := []
  encrypted : Bool := false
  deriving Repr, DecidableEq

/-- Error kinds surfaced by the registry (`RegistryError` with its distinct
messages, and `ConnectionError` from `base.py`). -/
inductive DataSourceErr where
  | registry_no_class
  | registry_duplicate
  | connection_failed
  deriving Repr, DecidableEq

/-- State of a `DataSourceRegistry`: active connector instances (by id),
stored configurations, and connector classes per type (classes identified by
number).  Dicts are association lists where assignment replaces the old
binding; the metadata cache and credential manager are collaborators no
modelled operation touches. -/
structure DataSourceRegistry where
  connectors : List (String × Nat)
  configs : List (String × DataSourceConfig)
  connector_classes : List (DataSourceType × Nat)
  deriving Repr, DecidableEq

/-- `_encrypt_config`: copy the config with its payload map replaced by the
encrypted form (opaque wrapper, see `DataSourceConfig`). -/
def DataSourceRegistry.encrypt_config (config : DataSourceConfig) :
    DataSourceConfig :=
  { config with encrypted := true }

/-- `register_connector_class`: despite the docstring's "Raises:
RegistryError if already registered", the body only logs a warning and
overwrites the binding (dict assignment) — a total function with no error
path. -/
def DataSourceRegistry.register_connector_class (r : DataSourceRegistry)
    (data_source_type : DataSourceType) (connector_class : Nat) :
    DataSourceRegistry :=
  { r with connector_classes :=
      (data_source_type, connector_class) ::
        r.connector_classes.eraseP (fun p => p.1 == data_source_type) }

/-- Registered connector class for a type
(`self._connector_classes[data_source_type]`). -/
def DataSourceRegistry.lookup_class (r : DataSourceRegistry)
    (data_source_type : DataSourceType) : Option Nat :=
  (r.connector_classes.find? (fun p => p.1 == data_source_type)).map (·.2)

/-- `exists`: `data_source_id in self._configs`. -/
def DataSourceRegistry.exists (r : DataSourceRegistry)
    (data_source_id : String) : Bool :=
  (r.configs.find? (fun p => p.1 == data_source_id)).isSome

/-- `register_data_source`: returns the registry state after the call paired
with the result (`.ok id` or the raised error).  `test_result` is the
outcome of the fresh connector's `test_connection()` (`some b` = returns
`b`, `none` = raises; an inner connection-test failure is re-raised as the
connection error either way, and the temporary connector is disconnected in
the `finally`).  Every raise happens before the configuration store, so the
stored configs are untouched on error. -/
def DataSourceRegistry.register_data_source (r : DataSourceRegistry)
    (config : DataSourceConfig) (test_connection : Bool)
    (test_result : Option Bool) :
    DataSourceRegistry × Except DataSourceErr String :=
  if (r.connector_classes.find? (fun p => p.1 == config.ty)).isNone then
    (r, .error .registry_no_class)
  else if (r.configs.find? (fun p => p.1 == config.id)).isSome then
    (r, .error .registry_duplicate)
  else
    let encrypted_config := DataSourceRegistry.encrypt_config config
    if test_connection then
      match test_result with
      | some true =>
          ({ r with configs := (config.id, encrypted_config) ::
              r.configs.eraseP (fun p => p.1 == config.id) }, .ok config.id)
      | _ => (r, .error .connection_failed)
    else
      ({ r with configs := (config.id, encrypted_config) ::
          r.configs.eraseP (fun p => p.1 == config.id) }, .ok config.id)

/-- State of a `ConnectionPoolManager`: the pool dict and the default pool
configuration. -/
structure ConnectionPoolManager where
  pools : List (String × ConnectionPool)
  default_config : PoolConfig
  deriving Repr, DecidableEq

/-- `ConnectionPoolManager.__init__`. -/
def mkConnectionPoolManager (default_config : PoolConfig) :
    ConnectionPoolManager :=
  { pools := [], default_config := default_config }

/-- `get_pool`: under the manager lock, create and initialize a pool on the
first request for `data_source_id` (with `config` or the default), store it,
and return the stored pool; later calls return the stored pool and ignore
their `config` argument. -/
def ConnectionPoolManager.get_pool (m : ConnectionPoolManager)
    (data_source_id : String) (config : Option PoolConfig) (now : Nat) :
    ConnectionPool × ConnectionPoolManager :=
  match m.pools.find? (fun p => p.1 == data_source_id) with
  | some p => (p.2, m)
  | none =>
      let pool_config := config.getD m.default_config
      let pool := (mkConnectionPool data_source_id pool_config).initialize_pool now
      (pool, { m with pools := (data_source_id, pool) ::
          m.pools.eraseP (fun p => p.1 == data_source_id) })

/-! ## Claim C6 -/

/-- C6: a registration that requests connection testing reaching a failing
or raising test surfaces the connection error and leaves the registry's
stored configurations unchanged — afterwards the data source still does not
exist.  (The premise entails the id was free and the type had a class, else
registration raises a registry error before any test.) -/
theorem c6_failed_test_never_persists (r : DataSourceRegistry)
    (cfg : DataSourceConfig) (test_result : Option Bool)
    (hclass : (r.connector_classes.find? (fun p => p.1 == cfg.ty)).isSome)
    (hnew : DataSourceRegistry.exists r cfg.id = false)
    (hfail : test_result ≠ some true) :
    (r.register_data_source cfg true test_result).2
      = .error .connection_failed ∧
    (r.register_data_source cfg true test_result).1 = r ∧
    DataSourceRegistry.exists
      (r.register_data_source cfg true test_result).1 cfg.id = false := by
  obtain ⟨v, hv⟩ := Option.isSome_iff_exists.mp hclass
  simp only [DataSourceRegistry.exists] at hnew
  have hmain : r.register_data_source cfg true test_result
      = (r, .error .connection_failed) := by
    match test_result, hfail with
    | some false, _ =>
        simp [DataSourceRegistry.register_data_source, hv, hnew]
    | none, _ =>
        simp [DataSourceRegistry.register_data_source, hv, hnew]
    | some true, h => exact absurd rfl h
  rw [hmain]
  exact ⟨rfl, rfl, by simpa [DataSourceRegistry.exists] using hnew⟩

/-- Registry with a connector class for `postgresql` and nothing stored,
for the C6 and C10 witnesses. -/
def rW : DataSourceRegistry :=
  { connectors := [], configs := [],
    connector_classes := [(DataSourceType.postgresql, 7)] }

/-- A configuration to register in the C6 witness. -/
def cfgW : DataSourceConfig :=
  { id := "pg-main", ty := DataSourceType.postgresql, name := "Main DB",
    config := [("host", "db")] }

/-- Witness for C6: registering `cfgW` into `rW` with a failing connection
test raises the connection error and `exists` stays `false`. -/
theorem c6_witness :
    (rW.connector_classes.find? (fun p => p.1 == cfgW.ty)).isSome = true ∧
    DataSourceRegistry.exists rW cfgW.id = false ∧
    ((rW.register_data_source cfgW true (some false)).2
       = .error .connection_failed ∧
     (rW.register_data_source cfgW true (some false)).1 = rW ∧
     DataSourceRegistry.exists
       (rW.register_data_source cfgW true (some false)).1 cfgW.id = false) :=
  ⟨by decide, by decide,
   c6_failed_test_never_persists rW cfgW (some false) (by decide) (by decide)
     (by decide)⟩

/-! ## Claim C10 -/

/-- C10: `register_connector_class` on a type that already has a registered
class returns normally (it is a total function — the source has no raise
path, contrary to its docstring) and replaces the binding with the new
class. -/
theorem c10_register_connector_class_overwrites (r : DataSourceRegistry)
    (ty : DataSourceType) (cls_old cls_new : Nat)
    (_h : r.lookup_class ty = some cls_old) :
    (r.register_connector_class ty cls_new).lookup_class ty
      = some cls_new := by
  simp [DataSourceRegistry.register_connector_class,
    DataSourceRegistry.lookup_class]

/-- Witness for C10: re-registering class 9 for `postgresql` over the
existing class 7 in `rW` succeeds and yields class 9. -/
theorem c10_witness :
    rW.lookup_class DataSourceType.postgresql = some 7 ∧
    (rW.register_connector_class DataSourceType.postgresql 9).lookup_class
      DataSourceType.postgresql = some 9 :=
  ⟨by decide,
   c10_register_connector_class_overwrites rW DataSourceType.postgresql 7 9
     (by decide)⟩

/-! ## Claim C8 -/

/-- Any pool-to-pool step that keeps `config` keeps it through a fold, as
`initialize`'s warmup loop does. -/
theorem foldl_config_preserved (f : ConnectionPool → Nat → ConnectionPool)
    (hf : ∀ s x, (f s x).config = s.config) :
    ∀ (l : List Nat) (s : ConnectionPool), (l.foldl f s).config = s.config := by
  intro l
  induction l with
  | nil => intro s; rfl
  | cons a l ih => intro s; rw [List.foldl_cons, ih, hf]

/-- `initialize` never changes the pool's configuration. -/
theorem initialize_config (s : ConnectionPool) (now : Nat) :
    (s.initialize_pool now).config = s.config := by
  unfold ConnectionPool.initialize_pool
  apply foldl_config_preserved
  intro s x
  rfl

/-- C8: on the first `get_pool` request for an id the catalog creates and
initializes a pool from the supplied config; a second request with a
different config returns the identical stored pool, leaves the catalog
unchanged, and the pool's configuration is still the first call's (first
registration wins). -/
theorem c8_get_pool_first_registration_wins (m : ConnectionPoolManager)
    (data_source_id : String) (c₁ c₂ : PoolConfig) (t₁ t₂ : Nat)
    (h : m.pools.find? (fun p => p.1 == data_source_id) = none) :
    ((m.get_pool data_source_id (some c₁) t₁).2.get_pool data_source_id
        (some c₂) t₂).1
      = (m.get_pool data_source_id (some c₁) t₁).1 ∧
    ((m.get_pool data_source_id (some c₁) t₁).2.get_pool data_source_id
        (some c₂) t₂).2
      = (m.get_pool data_source_id (some c₁) t₁).2 ∧
    (m.get_pool data_source_id (some c₁) t₁).1.config = c₁ := by
  have h1 : m.get_pool data_source_id (some c₁) t₁
      = ((mkConnectionPool data_source_id c₁).initialize_pool t₁,
         { m with pools := (data_source_id,
             (mkConnectionPool data_source_id c₁).initialize_pool t₁) ::
             m.pools.eraseP (fun p => p.1 == data_source_id) }) := by
    simp [ConnectionPoolManager.get_pool, h]
  rw [h1]
  refine ⟨?_, ?_, by rw [initialize_config]; rfl⟩ <;>
    simp [ConnectionPoolManager.get_pool]

/-- Witness for C8: a fresh catalog, id "ds", first config `cfgT`, second
config `cfg9`. -/
theorem c8_witness :
    (mkConnectionPoolManager {}).pools.find? (fun p => p.1 == "ds") = none ∧
    ((((mkConnectionPoolManager {}).get_pool "ds" (some cfgT) 0).2.get_pool
        "ds" (some cfg9) 1).1
      = ((mkConnectionPoolManager {}).get_pool "ds" (some cfgT) 0).1 ∧
     (((mkConnectionPoolManager {}).get_pool "ds" (some cfgT) 0).2.get_pool
        "ds" (some cfg9) 1).2
      = ((mkConnectionPoolManager {}).get_pool "ds" (some cfgT) 0).2 ∧
     ((mkConnectionPoolManager {}).get_pool "ds" (some cfgT) 0).1.config
      = cfgT) :=
  ⟨rfl, c8_get_pool_first_registration_wins (mkConnectionPoolManager {})
    "ds" cfgT cfg9 0 1 rfl⟩
